import Mathlib

/-!
Shallow embedding of `component_1_basic_connection` (`basic_connection.py` and
`check_models.py`): model listing, model selection, a single generation call and
response display.  Console output, network calls and model construction are
modelled as an explicit effect trace; the environment variable and the
provider's answers are fields of a `World` record.
-/

/-- One observable effect of the program: a console print, the network call that
lists models, the network call that generates content, or the local
construction of a model instance with a given name. -/
inductive Effect where
  | print (s : String)
  | networkListModels
  | networkGenerate (modelName : String) (prompt : String)
  | constructModel (modelName : String)
  deriving DecidableEq

/-- A provider model descriptor as the script reads it: `model.name`,
`model.display_name` and `model.supported_generation_methods`. -/
structure ModelDescriptor where
  name : String
  display_name : String
  supported_generation_methods : List String
  deriving DecidableEq

/-- One response candidate: the script reads `finish_reason` and the length of
`safety_ratings`. -/
structure Candidate where
  finish_reason : String
  safety_ratings : List String
  deriving DecidableEq

/-- A generation response: the script reads `response.text` and
`response.candidates`. -/
structure GenerationResponse where
  text : String
  candidates : List Candidate
  deriving DecidableEq

/-- The external world a run observes: the `GOOGLE_API_KEY` environment
variable, the outcome of `genai.list_models()` (a descriptor list, or a raised
exception carried as a message), and the outcome of
`model.generate_content(q)` for each model name and prompt. -/
structure World where
  googleApiKey : Option String
  listModelsResult : Except String (List ModelDescriptor)
  generateResult : String → String → Except String GenerationResponse

/-- Python truthiness of the optional API key string: `not api_key` holds when
the variable is unset or set to the empty string. -/
def falsyKey : Option String → Bool
  | none => true
  | some s => s.isEmpty

/-- The capability name the script tests for. -/
def generationMethod : String := "generateContent"

/-- The membership test `'generateContent' in model.supported_generation_methods`. -/
def supportsGeneration (m : ModelDescriptor) : Bool :=
  m.supported_generation_methods.contains generationMethod

/-- The `working_models` list built in `setup_gemini`: names of the descriptors
that support generation, in input order. -/
def working_models (models : List ModelDescriptor) : List String :=
  (models.filter (fun m => supportsGeneration m)).map (fun m => m.name)

/-- The hard-coded `preferred_models` list of `setup_gemini`. -/
def preferred_models : List String :=
  ["models/gemini-2.5-flash", "models/gemini-2.0-flash", "models/gemini-flash-latest"]

/-- The preference loop of `setup_gemini`: the first name of the preference
list that occurs in `working`, if any. -/
def pickPreferred : List String → List String → Option String
  | [], _ => none
  | p :: ps, working => if working.contains p then some p else pickPreferred ps working

/-- The fallback after the preference loop: Python reassigns `model_name` to
`working_models[0]` when `not model_name`, i.e. when the loop left it `None`
or (vacuously) the empty string. -/
def orFirst (model_name : Option String) (working : List String) : Option String :=
  match model_name with
  | some n => if n.isEmpty then working.head? else some n
  | none => working.head?

/-- The model-selection stage of `setup_gemini` as a pure function of the
descriptor sequence: filter to capable models, fail (`None`) when none remain,
otherwise the first preferred name present, else the first capable name. -/
def selectModel (models : List ModelDescriptor) : Option String :=
  let working := working_models models
  if working.isEmpty then none
  else orFirst (pickPreferred preferred_models working) working

/-- `'-' * 50` -/
def dash50 : String := String.mk (List.replicate 50 '-')

/-- `'=' * 70` -/
def eq70 : String := String.mk (List.replicate 70 '=')

/-- `'=' * 80` -/
def eq80 : String := String.mk (List.replicate 80 '=')

/-- `'-' * 80` -/
def dash80 : String := String.mk (List.replicate 80 '-')

/-- The per-descriptor print block of `list_available_models`. -/
def model_report (m : ModelDescriptor) : List Effect :=
  let supports_generate := m.supported_generation_methods.contains generationMethod
  let status := if supports_generate then "✓ Supports generateContent" else "✗ No generateContent"
  [Effect.print ("Model: " ++ m.name),
   Effect.print ("  Display Name: " ++ m.display_name),
   Effect.print ("  Status: " ++ status),
   Effect.print ("  Methods: " ++ String.intercalate ", " m.supported_generation_methods),
   Effect.print dash50]

/-- The loop of `list_available_models` over all descriptors. -/
def reportAll : List ModelDescriptor → List Effect
  | [] => []
  | m :: ms => model_report m ++ reportAll ms

/-- `list_available_models`: announce, call the provider, print each
descriptor; a raised exception is caught, printed, and turned into `None`. -/
def list_available_models (w : World) : List Effect × Option (List ModelDescriptor) :=
  let t0 := [Effect.print "🔍 Checking available models...", Effect.networkListModels]
  match w.listModelsResult with
  | Except.error e =>
      (t0 ++ [Effect.print ("❌ Error listing models: " ++ e)], none)
  | Except.ok models =>
      (t0 ++ [Effect.print "\n📋 Available Models:", Effect.print dash50]
          ++ reportAll models, some models)

/-- `setup_gemini`: check the key, list models, bail out when the list is
`None` or empty, build `working_models`, bail out when it is empty, select a
name and construct the model instance. -/
def setup_gemini (w : World) : List Effect × Option String :=
  if falsyKey w.googleApiKey then
    ([Effect.print "⚠️  GOOGLE_API_KEY not found in environment!",
      Effect.print "Get your key from: https://aistudio.google.com/app/apikey",
      Effect.print "Then run: export GOOGLE_API_KEY=\x27your-key-here\x27"], none)
  else
    let lam := list_available_models w
    match lam.2 with
    | none => (lam.1, none)
    | some models =>
      if models.isEmpty then (lam.1, none)
      else
        if (working_models models).isEmpty then
          (lam.1 ++ [Effect.print "❌ No models support generateContent!"], none)
        else
          match selectModel models with
          | none => (lam.1, none)
          | some model_name =>
              (lam.1 ++
                [Effect.print ("\n✓ Using model: " ++ model_name),
                 Effect.constructModel model_name,
                 Effect.print "✓ Gemini API configured successfully!",
                 Effect.print ("✓ Using model: " ++ model_name ++ "\n")],
               some model_name)

/-- The fixed question `main` asks. -/
def question : String := "Explain what an AI agent is in 2-3 sentences."

/-- `ask_question`: one print, then the blocking `generate_content` call whose
exception, if any, propagates to the caller. -/
def ask_question (w : World) (modelName q : String) :
    List Effect × Except String GenerationResponse :=
  ([Effect.print ("📤 Sending question: " ++ q ++ "\n"),
    Effect.networkGenerate modelName q],
   w.generateResult modelName q)

/-- The prints of `display_response` up to and including the candidate count,
all emitted before `candidates[0]` is touched. -/
def display_header (text : String) (numCandidates : Nat) : List Effect :=
  [Effect.print eq70,
   Effect.print "📥 GEMINI RESPONSE:",
   Effect.print eq70,
   Effect.print text,
   Effect.print eq70,
   Effect.print "\n📊 Response Metadata:",
   Effect.print ("   - Number of candidates: " ++ toString numCandidates)]

/-- The two metadata prints that read `candidates[0]`. -/
def display_meta (finishReason : String) (numRatings : Nat) : List Effect :=
  [Effect.print ("   - Finish reason: " ++ finishReason),
   Effect.print ("   - Safety ratings: " ++ toString numRatings ++ " checks")]

/-- `display_response`: prints the text and metadata; the unguarded
`response.candidates[0]` raises `IndexError` on an empty candidate list. -/
def display_response (r : GenerationResponse) : List Effect × Except String Unit :=
  let t0 := display_header r.text r.candidates.length
  match r.candidates with
  | [] => (t0, Except.error "IndexError: list index out of range")
  | c :: _ => (t0 ++ display_meta c.finish_reason c.safety_ratings.length, Except.ok ())

/-- A whole run: the effect trace and whether it ended normally or with an
uncaught exception. -/
structure RunResult where
  trace : List Effect
  outcome : Except String Unit

/-- The banner prints at the top of `main`. -/
def main_header : List Effect :=
  [Effect.print ("\n" ++ eq70),
   Effect.print "COMPONENT 1: Basic Gemini API Connection",
   Effect.print (eq70 ++ "\n")]

/-- The closing prints of `main`. -/
def main_footer : List Effect :=
  [Effect.print "\n✅ Component 1 Complete!",
   Effect.print "\nWhat you learned:",
   Effect.print "  ✓ How to configure Gemini API",
   Effect.print "  ✓ How to make a basic API call",
   Effect.print "  ✓ How to parse and display responses",
   Effect.print "\nNext: Component 2 will add tool calling (functions)"]

/-- `main` of `basic_connection.py`.  There is no try/except here: an exception
raised by `ask_question` or `display_response` escapes as the run's outcome. -/
def run_main (w : World) : RunResult :=
  let s := setup_gemini w
  match s.2 with
  | none => ⟨main_header ++ s.1, Except.ok ()⟩
  | some modelName =>
    let a := ask_question w modelName question
    match a.2 with
    | Except.error e => ⟨main_header ++ s.1 ++ a.1, Except.error e⟩
    | Except.ok resp =>
      let d := display_response resp
      match d.2 with
      | Except.error e => ⟨main_header ++ s.1 ++ a.1 ++ d.1, Except.error e⟩
      | Except.ok _ => ⟨main_header ++ s.1 ++ a.1 ++ d.1 ++ main_footer, Except.ok ()⟩

/-- The per-descriptor print block of `check_models.py`. -/
def cm_model_report (m : ModelDescriptor) : List Effect :=
  let supports_generate := m.supported_generation_methods.contains generationMethod
  [Effect.print ("Model Name: " ++ m.name),
   Effect.print ("Display Name: " ++ m.display_name),
   Effect.print ("Supports generateContent: " ++ if supports_generate then "✓ YES" else "✗ NO"),
   Effect.print ("All Methods: " ++ String.intercalate ", " m.supported_generation_methods),
   Effect.print dash80]

/-- The loop of `check_models.py` over all descriptors. -/
def cmReportAll : List ModelDescriptor → List Effect
  | [] => []
  | m :: ms => cm_model_report m ++ cmReportAll ms

/-- The usable-models summary of `check_models.py`. -/
def cm_usable_report : List String → List Effect
  | [] => [Effect.print "  ❌ No models support generateContent!"]
  | names => names.map (fun n => Effect.print ("  ✓ " ++ n))

/-- `main` of `check_models.py`: key check, then one listing call inside a
try/except that prints any exception; nothing escapes. -/
def run_check_models (w : World) : List Effect × Except String Unit :=
  if falsyKey w.googleApiKey then
    ([Effect.print "❌ GOOGLE_API_KEY not found in environment!",
      Effect.print "Set it with: export GOOGLE_API_KEY=\x27your-key-here\x27"], Except.ok ())
  else
    let t0 := [Effect.print "🔍 Fetching available models for your API key...\n",
               Effect.networkListModels]
    match w.listModelsResult with
    | Except.error e =>
        (t0 ++ [Effect.print ("❌ Error: " ++ e),
                Effect.print "\nPossible issues:",
                Effect.print "  - Invalid API key",
                Effect.print "  - Network connectivity",
                Effect.print "  - API quota exceeded"], Except.ok ())
    | Except.ok models =>
        (t0 ++ [Effect.print "📋 AVAILABLE MODELS:", Effect.print eq80]
            ++ cmReportAll models
            ++ [Effect.print "\n🎯 MODELS YOU CAN USE (support generateContent):"]
            ++ cm_usable_report (working_models models)
            ++ [Effect.print ("\nTotal models available: " ++ toString models.length),
                Effect.print ("Models supporting generateContent: "
                    ++ toString (working_models models).length)],
         Except.ok ())

/-- Network effects: the two provider calls. -/
def isNetwork : Effect → Bool
  | Effect.print _ => false
  | Effect.networkListModels => true
  | Effect.networkGenerate _ _ => true
  | Effect.constructModel _ => false

/-- Generation-call effects only. -/
def isGenerate : Effect → Bool
  | Effect.print _ => false
  | Effect.networkListModels => false
  | Effect.networkGenerate _ _ => true
  | Effect.constructModel _ => false

/-! ### Helper lemmas about the selector -/

lemma list_contains_iff {w : List String} {a : String} : w.contains a = true ↔ a ∈ w := by
  simp [List.contains]

lemma pickPreferred_mem {ps w : List String} {q : String}
    (h : pickPreferred ps w = some q) : q ∈ ps ∧ q ∈ w := by
  induction ps with
  | nil => simp [pickPreferred] at h
  | cons p ps ih =>
    by_cases hc : w.contains p
    · simp only [pickPreferred, hc, if_pos] at h
      cases h
      exact ⟨List.mem_cons_self _ _, list_contains_iff.mp hc⟩
    · simp only [pickPreferred, hc, if_neg, Bool.false_eq_true, not_false_iff] at h
      rcases ih h with ⟨h1, h2⟩
      exact ⟨List.mem_cons_of_mem _ h1, h2⟩

lemma pickPreferred_isSome {ps w : List String} {p : String} (hp : p ∈ ps) (hw : p ∈ w) :
    ∃ q, pickPreferred ps w = some q := by
  induction ps with
  | nil => cases hp
  | cons a ps ih =>
    by_cases hc : w.contains a
    · exact ⟨a, by simp only [pickPreferred, hc]; simp⟩
    · have hc' : a ∉ w := fun hm => hc (list_contains_iff.mpr hm)
      rcases List.mem_cons.mp hp with h | h
      · subst h
        exact absurd hw hc'
      · rcases ih h with ⟨q, hq⟩
        exact ⟨q, by simp [pickPreferred, hc', hq]⟩

lemma pickPreferred_none {ps w : List String} (h : ∀ p ∈ ps, p ∉ w) :
    pickPreferred ps w = none := by
  induction ps with
  | nil => rfl
  | cons a ps ih =>
    have hc : w.contains a = false := by
      cases hc : w.contains a
      · rfl
      · exact absurd (list_contains_iff.mp hc) (h a (List.mem_cons_self _ _))
    simp only [pickPreferred, hc, Bool.false_eq_true, if_neg, not_false_iff]
    exact ih (fun p hp => h p (List.mem_cons_of_mem _ hp))

lemma pickPreferred_min {ps w : List String} {q : String}
    (h : pickPreferred ps w = some q) :
    ∀ p ∈ ps, p ∈ w → ps.indexOf q ≤ ps.indexOf p := by
  induction ps with
  | nil => intro p hp; cases hp
  | cons a ps ih =>
    intro p hp hpw
    by_cases hc : w.contains a
    · have hqa : q = a := by
        simp only [pickPreferred, hc, if_pos] at h
        cases h; rfl
      subst hqa
      simp [List.indexOf_cons_self]
    · have h' : pickPreferred ps w = some q := by
        simpa only [pickPreferred, hc, Bool.false_eq_true, if_neg, not_false_iff] using h
      have haw : a ∉ w := fun hm => hc (list_contains_iff.mpr hm)
      have hq := pickPreferred_mem h'
      have hqa : a ≠ q := fun e => haw (e ▸ hq.2)
      have hpa : a ≠ p := fun e => haw (e ▸ hpw)
      have hp' : p ∈ ps := by
        rcases List.mem_cons.mp hp with h0 | h0
        · exact absurd h0.symm hpa
        · exact h0
      rw [List.indexOf_cons_ne _ hqa, List.indexOf_cons_ne _ hpa]
      exact Nat.succ_le_succ (ih h' p hp' hpw)

lemma preferred_nonempty_str {q : String} (hq : q ∈ preferred_models) :
    q.isEmpty = false := by
  simp only [preferred_models, List.mem_cons, List.not_mem_nil, or_false] at hq
  rcases hq with rfl | rfl | rfl <;> rfl

lemma filter_head?_eq_find? {α : Type} (p : α → Bool) (l : List α) :
    (l.filter p).head? = l.find? p := by
  induction l with
  | nil => rfl
  | cons a l ih =>
    cases hp : p a
    · simp [List.filter_cons, List.find?_cons, hp, ih]
    · simp [List.filter_cons, List.find?_cons, hp]

lemma selectModel_eq_some_of_pick {models : List ModelDescriptor} {q : String}
    (hq : pickPreferred preferred_models (working_models models) = some q) :
    selectModel models = some q := by
  have hmem := pickPreferred_mem hq
  have hne : (working_models models).isEmpty = false := by
    cases hwm : working_models models
    · rw [hwm] at hmem; cases hmem.2
    · rfl
  simp [selectModel, hne, hq, orFirst, preferred_nonempty_str hmem.1]

/-! ### Selector claims -/

/-- C1: for every descriptor sequence in which at least one capable model's
name belongs to the fixed preference list, the selector returns the
highest-priority preferred name present in the capable subset, regardless of
its position in the input sequence (the statement only mentions membership in
`working_models`, never positions). -/
theorem C1_selector_highest_priority_preferred (models : List ModelDescriptor)
    (h : ∃ p ∈ preferred_models, p ∈ working_models models) :
    ∃ q, selectModel models = some q ∧ q ∈ preferred_models ∧
      q ∈ working_models models ∧
      ∀ p ∈ preferred_models, p ∈ working_models models →
        preferred_models.indexOf q ≤ preferred_models.indexOf p := by
  rcases h with ⟨p, hp, hw⟩
  rcases pickPreferred_isSome hp hw with ⟨q, hq⟩
  have hmem := pickPreferred_mem hq
  exact ⟨q, selectModel_eq_some_of_pick hq, hmem.1, hmem.2, pickPreferred_min hq⟩

/-- A concrete sequence for C1: two preferred capable names, the
lower-priority one first, plus an incapable model. -/
def c1_models : List ModelDescriptor :=
  [⟨"models/gemini-flash-latest", "Latest", ["generateContent"]⟩,
   ⟨"models/other", "Other", ["embedContent"]⟩,
   ⟨"models/gemini-2.0-flash", "Flash 2.0", ["generateContent"]⟩]

/-- C1 witness at `c1_models`. -/
theorem C1_selector_highest_priority_preferred_witness :
    ∃ q, selectModel c1_models = some q ∧ q ∈ preferred_models ∧
      q ∈ working_models c1_models ∧
      ∀ p ∈ preferred_models, p ∈ working_models c1_models →
        preferred_models.indexOf q ≤ preferred_models.indexOf p :=
  C1_selector_highest_priority_preferred c1_models (by decide)

/-- C2: with no preferred name among the capable names but at least one capable
model, the selector returns the name of the first capable descriptor in input
order. -/
theorem C2_selector_first_capable (models : List ModelDescriptor)
    (hnp : ∀ p ∈ preferred_models, p ∉ working_models models)
    (hne : working_models models ≠ []) :
    ∃ m, models.find? (fun d => supportsGeneration d) = some m ∧
      selectModel models = some m.name := by
  have hpick := pickPreferred_none hnp
  have hE : (working_models models).isEmpty = false := by
    cases h : working_models models
    · exact absurd h hne
    · rfl
  have hhead : (working_models models).head?
      = (models.find? (fun d => supportsGeneration d)).map (fun m => m.name) := by
    unfold working_models
    rw [List.head?_map, filter_head?_eq_find?]
  obtain ⟨m, hm⟩ : ∃ m, models.find? (fun d => supportsGeneration d) = some m := by
    cases hf : models.find? (fun d => supportsGeneration d)
    · rw [hf] at hhead
      simp only [Option.map_none'] at hhead
      exact absurd (List.head?_eq_none_iff.mp hhead) hne
    · exact ⟨_, rfl⟩
  refine ⟨m, hm, ?_⟩
  simp [selectModel, hE, hpick, orFirst, hhead, hm]

/-- A concrete sequence for C2: two capable models, neither preferred. -/
def c2_models : List ModelDescriptor :=
  [⟨"models/a", "A", ["generateContent"]⟩,
   ⟨"models/b", "B", ["generateContent"]⟩]

/-- C2 witness at `c2_models`. -/
theorem C2_selector_first_capable_witness :
    ∃ m, c2_models.find? (fun d => supportsGeneration d) = some m ∧
      selectModel c2_models = some m.name :=
  C2_selector_first_capable c2_models (by decide) (by decide)

/-- C3: on an empty sequence, or one where no descriptor supports generation,
the selector returns no model name (the `None` outcome standing for
`NoCapableModelError`). -/
theorem C3_selector_no_capable (models : List ModelDescriptor)
    (h : models = [] ∨ ∀ m ∈ models, supportsGeneration m = false) :
    selectModel models = none := by
  have hw : working_models models = [] := by
    rcases h with rfl | h
    · rfl
    · have hfilter : models.filter (fun m => supportsGeneration m) = [] :=
        List.filter_eq_nil_iff.mpr (fun m hm => by simp [h m hm])
      simp [working_models, hfilter]
  simp [selectModel, hw]

/-- A concrete all-incapable sequence for C3. -/
def c3_models : List ModelDescriptor :=
  [⟨"models/embed-only", "Embed", ["embedContent"]⟩]

/-- C3 witness at `c3_models`. -/
theorem C3_selector_no_capable_witness : selectModel c3_models = none :=
  C3_selector_no_capable c3_models (Or.inr (by decide))

/-- The scenario input of C4: a non-preferred capable model first, a preferred
capable model second. -/
def c4_input : List ModelDescriptor :=
  [⟨"models/a", "A", ["generateContent"]⟩,
   ⟨"models/gemini-2.0-flash", "Gemini 2.0 Flash", ["generateContent"]⟩]

/-- C4: on `c4_input` the selector returns the preferred name despite its later
position. -/
theorem C4_scenario_prefers_gemini : selectModel c4_input = some "models/gemini-2.0-flash" := by
  decide

/-- The projection of a descriptor the selector can depend on: its name and its
supported-methods list. -/
def nameMethods (m : ModelDescriptor) : String × List String :=
  (m.name, m.supported_generation_methods)

lemma working_models_cons (m : ModelDescriptor) (ms : List ModelDescriptor) :
    working_models (m :: ms) =
      if supportsGeneration m then m.name :: working_models ms
      else working_models ms := by
  by_cases hm : supportsGeneration m <;> simp [working_models, List.filter_cons, hm]

lemma working_models_eq_of_nameMethods : ∀ {ms ms' : List ModelDescriptor},
    ms.map nameMethods = ms'.map nameMethods → working_models ms = working_models ms' := by
  intro ms
  induction ms with
  | nil =>
    intro ms' h
    have : ms' = [] := by
      cases ms'
      · rfl
      · simp at h
    rw [this]
  | cons m t ih =>
    intro ms' h
    cases ms' with
    | nil => simp at h
    | cons m' t' =>
      simp only [List.map_cons, List.cons.injEq, nameMethods, Prod.mk.injEq] at h
      obtain ⟨⟨hname, hmeth⟩, ht⟩ := h
      have hsup : supportsGeneration m = supportsGeneration m' := by
        simp [supportsGeneration, hmeth]
      rw [working_models_cons, working_models_cons, hsup, hname, ih ht]

/-- C10: the selector is a function of the descriptors' names and
supported-method lists only; sequences agreeing position by position on those
fields select the same model, whatever the other fields hold. -/
theorem C10_selector_depends_only_on_names_methods (ms ms' : List ModelDescriptor)
    (h : ms.map nameMethods = ms'.map nameMethods) :
    selectModel ms = selectModel ms' := by
  have hw := working_models_eq_of_nameMethods h
  simp [selectModel, hw]

/-- Sequences for the C10 witness: same names and methods, different display
names. -/
def c10_models : List ModelDescriptor :=
  [⟨"models/a", "Display A", ["generateContent"]⟩]

/-- Second sequence for the C10 witness. -/
def c10_models' : List ModelDescriptor :=
  [⟨"models/a", "Another display name", ["generateContent"]⟩]

/-- C10 witness at `c10_models` and `c10_models'`. -/
theorem C10_selector_depends_only_on_names_methods_witness :
    selectModel c10_models = selectModel c10_models' :=
  C10_selector_depends_only_on_names_methods c10_models c10_models' (by decide)

/-! ### Helper lemmas about traces and the selector's success -/

lemma head?_mem {α : Type} {l : List α} {a : α} (h : l.head? = some a) : a ∈ l := by
  cases l with
  | nil => cases h
  | cons b t =>
    injection h with h
    rw [← h]
    exact List.mem_cons_self _ _

lemma selectModel_isSome {models : List ModelDescriptor}
    (h : (working_models models).isEmpty = false) :
    ∃ n, selectModel models = some n := by
  cases hp : pickPreferred preferred_models (working_models models) with
  | none =>
    cases hw : working_models models with
    | nil => rw [hw] at h; cases h
    | cons a t =>
      rw [hw] at hp
      refine ⟨a, ?_⟩
      simp [selectModel, h, hp, orFirst, hw]
  | some q =>
    have hqE := preferred_nonempty_str (pickPreferred_mem hp).1
    exact ⟨q, by simp [selectModel, h, hp, orFirst, hqE]⟩

lemma selectModel_mem_working {models : List ModelDescriptor} {n : String}
    (h : selectModel models = some n) : n ∈ working_models models := by
  unfold selectModel at h
  by_cases hE : (working_models models).isEmpty
  · simp [hE] at h
  · simp only [hE, Bool.false_eq_true, if_neg, not_false_iff] at h
    cases hp : pickPreferred preferred_models (working_models models) with
    | none =>
      rw [hp] at h
      simp only [orFirst] at h
      exact head?_mem h
    | some q =>
      rw [hp] at h
      have hqE := preferred_nonempty_str (pickPreferred_mem hp).1
      simp only [orFirst, hqE, Bool.false_eq_true, if_neg, not_false_iff,
        Option.some.injEq] at h
      rw [← h]
      exact (pickPreferred_mem hp).2

lemma mem_model_report_print {m : ModelDescriptor} {e : Effect}
    (h : e ∈ model_report m) : ∃ s, e = Effect.print s := by
  simp only [model_report, List.mem_cons, List.not_mem_nil, or_false] at h
  rcases h with h | h | h | h | h <;> exact ⟨_, h⟩

lemma mem_reportAll_print {ms : List ModelDescriptor} {e : Effect}
    (h : e ∈ reportAll ms) : ∃ s, e = Effect.print s := by
  induction ms with
  | nil => simp [reportAll] at h
  | cons m t ih =>
    rcases List.mem_append.mp h with h | h
    · exact mem_model_report_print h
    · exact ih h

lemma mem_lam_shape {w : World} {e : Effect} (h : e ∈ (list_available_models w).1) :
    (∃ s, e = Effect.print s) ∨ e = Effect.networkListModels := by
  cases hr : w.listModelsResult with
  | error msg =>
    simp only [list_available_models, hr, List.mem_append, List.mem_cons,
      List.not_mem_nil, or_false] at h
    rcases h with (h | h) | h
    · exact Or.inl ⟨_, h⟩
    · exact Or.inr h
    · exact Or.inl ⟨_, h⟩
  | ok models =>
    have hl : (list_available_models w).1
        = [Effect.print "🔍 Checking available models...", Effect.networkListModels]
          ++ [Effect.print "\n📋 Available Models:", Effect.print dash50]
          ++ reportAll models := by
      simp only [list_available_models, hr]
    rw [hl] at h
    rcases List.mem_append.mp h with h | h
    · rcases List.mem_append.mp h with h | h
      · rcases List.mem_cons.mp h with h | h
        · exact Or.inl ⟨_, h⟩
        · rcases List.mem_cons.mp h with h | h
          · exact Or.inr h
          · cases h
      · rcases List.mem_cons.mp h with h | h
        · exact Or.inl ⟨_, h⟩
        · rcases List.mem_cons.mp h with h | h
          · exact Or.inl ⟨_, h⟩
          · cases h
    · exact Or.inl (mem_reportAll_print h)

lemma mem_main_header_print {e : Effect} (h : e ∈ main_header) :
    ∃ s, e = Effect.print s := by
  simp only [main_header, List.mem_cons, List.not_mem_nil, or_false] at h
  rcases h with h | h | h <;> exact ⟨_, h⟩

lemma mem_main_footer_print {e : Effect} (h : e ∈ main_footer) :
    ∃ s, e = Effect.print s := by
  simp only [main_footer, List.mem_cons, List.not_mem_nil, or_false] at h
  rcases h with h | h | h | h | h | h <;> exact ⟨_, h⟩

lemma mem_display_header_print {t : String} {k : Nat} {e : Effect}
    (h : e ∈ display_header t k) : ∃ s, e = Effect.print s := by
  simp only [display_header, List.mem_cons, List.not_mem_nil, or_false] at h
  rcases h with h | h | h | h | h | h | h <;> exact ⟨_, h⟩

lemma mem_display_print {r : GenerationResponse} {e : Effect}
    (h : e ∈ (display_response r).1) : ∃ s, e = Effect.print s := by
  cases hr : r.candidates with
  | nil =>
    simp only [display_response, hr] at h
    exact mem_display_header_print h
  | cons c cs =>
    simp only [display_response, hr, List.mem_append] at h
    rcases h with h | h
    · exact mem_display_header_print h
    · simp only [display_meta, List.mem_cons, List.not_mem_nil, or_false] at h
      rcases h with h | h <;> exact ⟨_, h⟩

lemma setup_cases (w : World) :
    ((setup_gemini w).2 = none ∧
      ∀ e ∈ (setup_gemini w).1,
        (∃ s, e = Effect.print s) ∨ e = Effect.networkListModels) ∨
    (∃ n models, (setup_gemini w).2 = some n ∧
      w.listModelsResult = Except.ok models ∧ selectModel models = some n ∧
      ∀ e ∈ (setup_gemini w).1,
        (∃ s, e = Effect.print s) ∨ e = Effect.networkListModels ∨
          e = Effect.constructModel n) := by
  by_cases hk : falsyKey w.googleApiKey
  · left
    have hs : setup_gemini w =
        ([Effect.print "⚠️  GOOGLE_API_KEY not found in environment!",
          Effect.print "Get your key from: https://aistudio.google.com/app/apikey",
          Effect.print "Then run: export GOOGLE_API_KEY=\x27your-key-here\x27"], none) := by
      simp [setup_gemini, hk]
    rw [hs]
    refine ⟨rfl, ?_⟩
    intro e he
    rcases List.mem_cons.mp he with h | h
    · exact Or.inl ⟨_, h⟩
    · rcases List.mem_cons.mp h with h | h
      · exact Or.inl ⟨_, h⟩
      · rcases List.mem_cons.mp h with h | h
        · exact Or.inl ⟨_, h⟩
        · cases h
  · have hk' : falsyKey w.googleApiKey = false := by
      cases hkk : falsyKey w.googleApiKey
      · rfl
      · exact absurd hkk hk
    cases hr : w.listModelsResult with
    | error msg =>
      left
      have hl2 : (list_available_models w).2 = none := by
        simp only [list_available_models, hr]
      have hs : setup_gemini w = ((list_available_models w).1, none) := by
        simp [setup_gemini, hk', hl2]
      rw [hs]
      exact ⟨rfl, fun e he => mem_lam_shape he⟩
    | ok models =>
      have hl2 : (list_available_models w).2 = some models := by
        simp only [list_available_models, hr]
      by_cases hme : models.isEmpty
      · left
        have hs : setup_gemini w = ((list_available_models w).1, none) := by
          simp [setup_gemini, hk', hl2, hme]
        rw [hs]
        exact ⟨rfl, fun e he => mem_lam_shape he⟩
      · by_cases hwe : (working_models models).isEmpty
        · left
          have hs : setup_gemini w =
              ((list_available_models w).1 ++
                [Effect.print "❌ No models support generateContent!"], none) := by
            simp [setup_gemini, hk', hl2, hme, hwe]
          rw [hs]
          refine ⟨rfl, ?_⟩
          intro e he
          rcases List.mem_append.mp he with h | h
          · exact mem_lam_shape h
          · rcases List.mem_cons.mp h with h | h
            · exact Or.inl ⟨_, h⟩
            · cases h
        · have hwe' : (working_models models).isEmpty = false := by
            cases hx : (working_models models).isEmpty
            · rfl
            · exact absurd hx hwe
          obtain ⟨n, hn⟩ := selectModel_isSome hwe'
          right
          have hs : setup_gemini w =
              ((list_available_models w).1 ++
                [Effect.print ("\n✓ Using model: " ++ n),
                 Effect.constructModel n,
                 Effect.print "✓ Gemini API configured successfully!",
                 Effect.print ("✓ Using model: " ++ n ++ "\n")],
               some n) := by
            simp [setup_gemini, hk', hl2, hme, hwe', hn]
          rw [hs]
          refine ⟨n, models, rfl, rfl, hn, ?_⟩
          intro e he
          rcases List.mem_append.mp he with h | h
          · rcases mem_lam_shape h with h | h
            · exact Or.inl h
            · exact Or.inr (Or.inl h)
          · rcases List.mem_cons.mp h with h | h
            · exact Or.inl ⟨_, h⟩
            · rcases List.mem_cons.mp h with h | h
              · exact Or.inr (Or.inr h)
              · rcases List.mem_cons.mp h with h | h
                · exact Or.inl ⟨_, h⟩
                · rcases List.mem_cons.mp h with h | h
                  · exact Or.inl ⟨_, h⟩
                  · cases h

/-! ### Run-level claims: credential guard, lister results, display -/

/-- C5: when `GOOGLE_API_KEY` is absent, both programs print their guidance
message and finish normally without issuing any network effect. -/
theorem C5_missing_key_no_network_call (w : World) (h : w.googleApiKey = none) :
    (run_main w).trace.all (fun e => !(isNetwork e)) = true ∧
    Effect.print "⚠️  GOOGLE_API_KEY not found in environment!" ∈ (run_main w).trace ∧
    (run_main w).outcome = Except.ok () ∧
    (run_check_models w).1.all (fun e => !(isNetwork e)) = true ∧
    Effect.print "❌ GOOGLE_API_KEY not found in environment!" ∈ (run_check_models w).1 := by
  have hk : falsyKey w.googleApiKey = true := by rw [h]; rfl
  have h1 : setup_gemini w =
      ([Effect.print "⚠️  GOOGLE_API_KEY not found in environment!",
        Effect.print "Get your key from: https://aistudio.google.com/app/apikey",
        Effect.print "Then run: export GOOGLE_API_KEY=\x27your-key-here\x27"], none) := by
    simp [setup_gemini, hk]
  have h2 : run_main w =
      ⟨main_header ++
        [Effect.print "⚠️  GOOGLE_API_KEY not found in environment!",
         Effect.print "Get your key from: https://aistudio.google.com/app/apikey",
         Effect.print "Then run: export GOOGLE_API_KEY=\x27your-key-here\x27"],
       Except.ok ()⟩ := by
    simp [run_main, h1]
  have h3 : run_check_models w =
      ([Effect.print "❌ GOOGLE_API_KEY not found in environment!",
        Effect.print "Set it with: export GOOGLE_API_KEY=\x27your-key-here\x27"],
       Except.ok ()) := by
    simp [run_check_models, hk]
  rw [h2, h3]
  exact ⟨by decide, by decide, rfl, by decide, by decide⟩

/-- A world with no API key for the C5 witness. -/
def wNoKey : World :=
  ⟨none, Except.ok [], fun _ _ => Except.error "unused"⟩

/-- C5 witness at `wNoKey`. -/
theorem C5_missing_key_no_network_call_witness :
    (run_main wNoKey).trace.all (fun e => !(isNetwork e)) = true ∧
    Effect.print "⚠️  GOOGLE_API_KEY not found in environment!" ∈ (run_main wNoKey).trace ∧
    (run_main wNoKey).outcome = Except.ok () ∧
    (run_check_models wNoKey).1.all (fun e => !(isNetwork e)) = true ∧
    Effect.print "❌ GOOGLE_API_KEY not found in environment!" ∈ (run_check_models wNoKey).1 :=
  C5_missing_key_no_network_call wNoKey rfl

/-- C8: the lister hands an empty provider list through as `some []` and turns
a raised listing exception into `none`; the two return values differ, so the
empty account and the failure are distinguishable. -/
theorem C8_lister_empty_vs_failure (w : World) :
    (∀ ms, w.listModelsResult = Except.ok ms →
      (list_available_models w).2 = some ms) ∧
    (∀ e, w.listModelsResult = Except.error e →
      (list_available_models w).2 = none) ∧
    (some ([] : List ModelDescriptor) ≠ (none : Option (List ModelDescriptor))) := by
  refine ⟨?_, ?_, by simp⟩
  · intro ms h
    simp only [list_available_models, h]
  · intro e h
    simp only [list_available_models, h]

/-- A world whose account has zero visible models, for the C8 witness. -/
def wEmptyAccount : World :=
  ⟨some "key", Except.ok [], fun _ _ => Except.error "unused"⟩

/-- C8 witness at `wEmptyAccount`: zero visible models yield `some []`. -/
theorem C8_lister_empty_vs_failure_witness :
    (list_available_models wEmptyAccount).2 = some [] :=
  (C8_lister_empty_vs_failure wEmptyAccount).1 [] rfl

/-- C9: `display_response` needs a candidate: with none, it stops in an
`IndexError` right after the header prints; with at least one, its whole output
is a function of the text, the candidate count, and only the first candidate's
finish reason and safety-rating count. -/
theorem C9_display_reads_first_candidate (r : GenerationResponse) :
    (r.candidates = [] →
      display_response r =
        (display_header r.text 0,
         Except.error "IndexError: list index out of range")) ∧
    (∀ c cs, r.candidates = c :: cs →
      display_response r =
        (display_header r.text (cs.length + 1)
            ++ display_meta c.finish_reason c.safety_ratings.length,
         Except.ok ())) := by
  constructor
  · intro h
    simp [display_response, h]
  · intro c cs h
    simp [display_response, h]

/-- A candidate-free response for the C9 witness. -/
def rNoCandidates : GenerationResponse := ⟨"blocked", []⟩

/-- C9 witness at `rNoCandidates`. -/
theorem C9_display_reads_first_candidate_witness :
    display_response rNoCandidates =
      (display_header "blocked" 0,
       Except.error "IndexError: list index out of range") :=
  (C9_display_reads_first_candidate rNoCandidates).1 rfl

lemma run_trace_shape {w : World} {nm : String} (hs2 : (setup_gemini w).2 = some nm) :
    ∀ e ∈ (run_main w).trace,
      e ∈ main_header ∨ e ∈ (setup_gemini w).1 ∨
      e = Effect.print ("📤 Sending question: " ++ question ++ "\n") ∨
      e = Effect.networkGenerate nm question ∨
      (∃ r : GenerationResponse, e ∈ (display_response r).1) ∨ e ∈ main_footer := by
  intro e he
  cases hg : w.generateResult nm question with
  | error err =>
    have hrm : (run_main w).trace
        = main_header ++ (setup_gemini w).1 ++
          [Effect.print ("📤 Sending question: " ++ question ++ "\n"),
           Effect.networkGenerate nm question] := by
      simp [run_main, hs2, ask_question, hg]
    rw [hrm] at he
    rcases List.mem_append.mp he with h | h
    · rcases List.mem_append.mp h with h | h
      · exact Or.inl h
      · exact Or.inr (Or.inl h)
    · rcases List.mem_cons.mp h with h | h
      · exact Or.inr (Or.inr (Or.inl h))
      · rcases List.mem_cons.mp h with h | h
        · exact Or.inr (Or.inr (Or.inr (Or.inl h)))
        · cases h
  | ok resp =>
    cases hdd : (display_response resp).2 with
    | error err2 =>
      have hrm : (run_main w).trace
          = main_header ++ (setup_gemini w).1 ++
            [Effect.print ("📤 Sending question: " ++ question ++ "\n"),
             Effect.networkGenerate nm question] ++ (display_response resp).1 := by
        simp [run_main, hs2, ask_question, hg, hdd]
      rw [hrm] at he
      rcases List.mem_append.mp he with h | h
      · rcases List.mem_append.mp h with h | h
        · rcases List.mem_append.mp h with h | h
          · exact Or.inl h
          · exact Or.inr (Or.inl h)
        · rcases List.mem_cons.mp h with h | h
          · exact Or.inr (Or.inr (Or.inl h))
          · rcases List.mem_cons.mp h with h | h
            · exact Or.inr (Or.inr (Or.inr (Or.inl h)))
            · cases h
      · exact Or.inr (Or.inr (Or.inr (Or.inr (Or.inl ⟨resp, h⟩))))
    | ok u =>
      have hrm : (run_main w).trace
          = main_header ++ (setup_gemini w).1 ++
            [Effect.print ("📤 Sending question: " ++ question ++ "\n"),
             Effect.networkGenerate nm question] ++ (display_response resp).1
            ++ main_footer := by
        simp [run_main, hs2, ask_question, hg, hdd]
      rw [hrm] at he
      rcases List.mem_append.mp he with h | h
      · rcases List.mem_append.mp h with h | h
        · rcases List.mem_append.mp h with h | h
          · rcases List.mem_append.mp h with h | h
            · exact Or.inl h
            · exact Or.inr (Or.inl h)
          · rcases List.mem_cons.mp h with h | h
            · exact Or.inr (Or.inr (Or.inl h))
            · rcases List.mem_cons.mp h with h | h
              · exact Or.inr (Or.inr (Or.inr (Or.inl h)))
              · cases h
        · exact Or.inr (Or.inr (Or.inr (Or.inr (Or.inl ⟨resp, h⟩))))
      · exact Or.inr (Or.inr (Or.inr (Or.inr (Or.inr h))))

/-- C6: any generation request or model construction appearing in a run's trace
uses a name drawn from the capable subset of the listed descriptors. -/
theorem C6_generation_request_uses_capable_name (w : World) (n : String)
    (h : (∃ p, Effect.networkGenerate n p ∈ (run_main w).trace) ∨
      Effect.constructModel n ∈ (run_main w).trace) :
    ∃ models, w.listModelsResult = Except.ok models ∧
      n ∈ working_models models := by
  rcases setup_cases w with ⟨hs2, hsh⟩ | ⟨nm, models, hs2, hr, hsel, hsh⟩
  · have hrm : (run_main w).trace = main_header ++ (setup_gemini w).1 := by
      simp [run_main, hs2]
    exfalso
    rcases h with ⟨p, hp⟩ | hc
    · rw [hrm] at hp
      rcases List.mem_append.mp hp with h0 | h0
      · rcases mem_main_header_print h0 with ⟨s, hs⟩; cases hs
      · rcases hsh _ h0 with ⟨s, hs⟩ | hs <;> cases hs
    · rw [hrm] at hc
      rcases List.mem_append.mp hc with h0 | h0
      · rcases mem_main_header_print h0 with ⟨s, hs⟩; cases hs
      · rcases hsh _ h0 with ⟨s, hs⟩ | hs <;> cases hs
  · refine ⟨models, hr, ?_⟩
    have hnm : n = nm := by
      rcases h with ⟨p, hp⟩ | hc
      · rcases run_trace_shape hs2 _ hp with h0 | h0 | h0 | h0 | ⟨r, h0⟩ | h0
        · rcases mem_main_header_print h0 with ⟨s, hs⟩; cases hs
        · rcases hsh _ h0 with ⟨s, hs⟩ | hs | hs <;> cases hs
        · cases h0
        · injection h0 with h1 h2
        · rcases mem_display_print h0 with ⟨s, hs⟩; cases hs
        · rcases mem_main_footer_print h0 with ⟨s, hs⟩; cases hs
      · rcases run_trace_shape hs2 _ hc with h0 | h0 | h0 | h0 | ⟨r, h0⟩ | h0
        · rcases mem_main_header_print h0 with ⟨s, hs⟩; cases hs
        · rcases hsh _ h0 with ⟨s, hs⟩ | hs | hs
          · cases hs
          · cases hs
          · injection hs with h1
        · cases h0
        · cases h0
        · rcases mem_display_print h0 with ⟨s, hs⟩; cases hs
        · rcases mem_main_footer_print h0 with ⟨s, hs⟩; cases hs
    rw [hnm]
    exact selectModel_mem_working hsel

/-- A world with one capable non-preferred model and a successful generation,
for the C6 witness. -/
def wGenOk : World :=
  ⟨some "key", Except.ok [⟨"models/a", "A", ["generateContent"]⟩],
   fun _ _ => Except.ok ⟨"hi", [⟨"STOP", ["rating"]⟩]⟩⟩

/-- C6 witness at `wGenOk`: the constructed model name is capable. -/
theorem C6_generation_request_uses_capable_name_witness :
    ∃ models, wGenOk.listModelsResult = Except.ok models ∧
      "models/a" ∈ working_models models :=
  C6_generation_request_uses_capable_name wGenOk "models/a" (Or.inr (by decide))

/-! ### C7: top-level error handling -/

/-- A world whose generation call is rejected by the provider. -/
def wGenErr : World :=
  ⟨some "key", Except.ok [⟨"models/gemini-2.5-flash", "Flash", ["generateContent"]⟩],
   fun _ _ => Except.error "GenerationError: prompt rejected"⟩

/-- C7 counterexample: `main` has no try/except, so the provider-side
generation rejection escapes the run uncaught instead of being caught and
printed at the top level. -/
theorem C7_counterexample_uncaught_generation_error :
    (run_main wGenErr).outcome = Except.error "GenerationError: prompt rejected" := by
  rfl

/-- C7 as amended: listing errors are caught inside the lister, printed, and
end the run normally without a generation call; a generation error escapes
`main` uncaught as the run's outcome; and no call is retried — each run issues
at most one generation request. -/
theorem C7_amended_error_handling (w : World) (e : String) :
    (falsyKey w.googleApiKey = false → w.listModelsResult = Except.error e →
      (run_main w).outcome = Except.ok () ∧
      Effect.print ("❌ Error listing models: " ++ e) ∈ (run_main w).trace ∧
      (run_main w).trace.countP isGenerate = 0) ∧
    (∀ n, (setup_gemini w).2 = some n →
      w.generateResult n question = Except.error e →
      (run_main w).outcome = Except.error e) ∧
    (run_main w).trace.countP isGenerate ≤ 1 := by
  refine ⟨?_, ?_, ?_⟩
  · intro hk' hr
    have hl2 : (list_available_models w).2 = none := by
      simp only [list_available_models, hr]
    have hs : setup_gemini w = ((list_available_models w).1, none) := by
      simp [setup_gemini, hk', hl2]
    have hrm : run_main w = ⟨main_header ++ (list_available_models w).1, Except.ok ()⟩ := by
      simp [run_main, hs]
    refine ⟨by rw [hrm], ?_, ?_⟩
    · rw [hrm]
      have hmem : Effect.print ("❌ Error listing models: " ++ e)
          ∈ (list_available_models w).1 := by
        simp [list_available_models, hr]
      exact List.mem_append.mpr (Or.inr hmem)
    · rw [hrm]
      show (main_header ++ (list_available_models w).1).countP isGenerate = 0
      rw [List.countP_append]
      have h1 : main_header.countP isGenerate = 0 := by decide
      have h2 : (list_available_models w).1.countP isGenerate = 0 := by
        rw [List.countP_eq_zero]
        intro a ha
        rcases mem_lam_shape ha with ⟨s, hs'⟩ | hs' <;>
          rw [hs'] <;> simp [isGenerate]
      rw [h1, h2]
  · intro n hs2 hgErr
    simp [run_main, hs2, ask_question, hgErr]
  · have cHeader : main_header.countP isGenerate = 0 := by decide
    have cFooter : main_footer.countP isGenerate = 0 := by decide
    rcases setup_cases w with ⟨hs2, hsh⟩ | ⟨nm, models, hs2, hr, hsel, hsh⟩
    · have hrm : (run_main w).trace = main_header ++ (setup_gemini w).1 := by
        simp [run_main, hs2]
      rw [hrm, List.countP_append, cHeader]
      have cSetup : (setup_gemini w).1.countP isGenerate = 0 := by
        rw [List.countP_eq_zero]
        intro a ha
        rcases hsh _ ha with ⟨s, hs'⟩ | hs' <;> rw [hs'] <;> simp [isGenerate]
      rw [cSetup]
      exact Nat.zero_le 1
    · have cSetup : (setup_gemini w).1.countP isGenerate = 0 := by
        rw [List.countP_eq_zero]
        intro a ha
        rcases hsh _ ha with ⟨s, hs'⟩ | hs' | hs' <;> rw [hs'] <;> simp [isGenerate]
      have cAsk : ([Effect.print ("📤 Sending question: " ++ question ++ "\n"),
          Effect.networkGenerate nm question] : List Effect).countP isGenerate = 1 := by
        simp [List.countP_cons, isGenerate]
      cases hg : w.generateResult nm question with
      | error err =>
        have hrm : (run_main w).trace
            = main_header ++ (setup_gemini w).1 ++
              [Effect.print ("📤 Sending question: " ++ question ++ "\n"),
               Effect.networkGenerate nm question] := by
          simp [run_main, hs2, ask_question, hg]
        rw [hrm, List.countP_append, List.countP_append, cHeader, cSetup, cAsk]
      | ok resp =>
        have cDisplay : (display_response resp).1.countP isGenerate = 0 := by
          rw [List.countP_eq_zero]
          intro a ha
          rcases mem_display_print ha with ⟨s, hs'⟩
          rw [hs']; simp [isGenerate]
        cases hdd : (display_response resp).2 with
        | error err2 =>
          have hrm : (run_main w).trace
              = main_header ++ (setup_gemini w).1 ++
                [Effect.print ("📤 Sending question: " ++ question ++ "\n"),
                 Effect.networkGenerate nm question] ++ (display_response resp).1 := by
            simp [run_main, hs2, ask_question, hg, hdd]
          rw [hrm, List.countP_append, List.countP_append, List.countP_append,
            cHeader, cSetup, cAsk, cDisplay]
        | ok u =>
          have hrm : (run_main w).trace
              = main_header ++ (setup_gemini w).1 ++
                [Effect.print ("📤 Sending question: " ++ question ++ "\n"),
                 Effect.networkGenerate nm question] ++ (display_response resp).1
                ++ main_footer := by
            simp [run_main, hs2, ask_question, hg, hdd]
          rw [hrm, List.countP_append, List.countP_append, List.countP_append,
            List.countP_append, cHeader, cSetup, cAsk, cDisplay, cFooter]

/-- A world whose listing call raises, for the C7 amended witness. -/
def wListErr : World :=
  ⟨some "key", Except.error "NetworkError: unreachable",
   fun _ _ => Except.error "unused"⟩

/-- C7 amended witness at `wListErr`: the listing error is caught and printed,
the run ends normally, and no generation call is issued. -/
theorem C7_amended_error_handling_witness :
    (run_main wListErr).outcome = Except.ok () ∧
    Effect.print ("❌ Error listing models: " ++ "NetworkError: unreachable")
      ∈ (run_main wListErr).trace ∧
    (run_main wListErr).trace.countP isGenerate = 0 :=
  (C7_amended_error_handling wListErr "NetworkError: unreachable").1 rfl rfl
